import Mathlib

/-!
Verification of the cognitive-reinforcement backend (quiz / mastery /
spaced-repetition logic) against its natural-language specification.

The Python source (`quiz.py`, `db.py`, `main.py`) is shallowly embedded:

* SQL rows become Lean structures, the database becomes an explicit
  `DbState` record of row lists, and every `engine.begin()` write becomes a
  pure state update (each write commits on its own, as in the source, so a
  request that raises midway keeps the writes made before the raise);
* Python `float` scores become `ℚ` (the source only adds/subtracts decimal
  constants and clamps, so exact rationals model the intended arithmetic);
* `datetime` values become integer timestamps counted in seconds, with
  `timedelta(days=d)` equal to `86400 * d` seconds; `datetime.utcnow()`
  becomes an explicit `now` parameter;
* Python `str.strip` / `str.lower` become `pyStrip` / `pyLower` over the
  character list of the string;
* the optional Azure OpenAI generator is an input (`Option GenResult`):
  `none` models a missing client or deployment, `apiError` a raised
  `OpenAIError`, `jsonError` a `json.JSONDecodeError` from `json.loads`,
  and `parsed v` a successfully decoded JSON value `v` (`PyVal`);
* `uuid4()` is an input stream `ids : Nat → String`.
-/

/-- A row of the `mastery` table (`db.py`, table `mastery`), without the
surrogate `id` column (rows are addressed by the
(patient_id, item_type, item_id) triple, as `_get_mastery_row` does). -/
structure MasteryDbRow where
  patient_id : String
  item_type : String
  item_id : String
  mastery_score : ℚ
  consecutive_correct : ℤ
  consecutive_incorrect : ℤ
  last_seen_at : Option ℤ
  next_due_at : Option ℤ

/-- A row of the `knowledge_items` table (`db.py`). -/
structure KnowledgeRow where
  id : String
  patient_id : String
  category : String
  label : String
  value : String
  sensitivity_level : ℤ
  is_active : Bool

/-- A row of the `family_members` table (`db.py`). -/
structure FamilyRow where
  id : String
  patient_id : String
  full_name : String
  relationship : String

/-- A row of the `quiz_sessions` table (`db.py`). -/
structure SessionRow where
  id : String
  patient_id : String
  status : String
  total_questions : ℤ
  score : Option ℚ
  avg_response_time_ms : Option ℚ

/-- The decoded `payload_json` of a quiz question, with exactly the keys
`submit_quiz` (`main.py`) reads back: `question_type`, `correct_answer`,
`acceptable_answers` (absent/None modelled as `[]`, as `payload.get(...) or
[]` produces), `item_type` and `item_id` (absent keys modelled as `none`).
Answers are modelled by their string representation, which is what
`evaluate_answer` compares. -/
structure QPayload where
  question_type : String
  correct_answer : String
  acceptable_answers : List String
  item_type : Option String
  item_id : Option String

/-- A row of the `quiz_questions` table (`db.py`), with the payload held
decoded (the source stores `json.dumps(q)` and decodes it on submit). -/
structure QQuestion where
  id : String
  session_id : String
  question_type : String
  payload : QPayload

/-- A row of the `quiz_responses` table (`db.py`), without surrogate id. -/
structure ResponseRow where
  session_id : String
  question_id : String
  user_answer : String
  correct : Bool
  response_time_ms : ℤ

/-- The database: one list per table used by the quiz flow. -/
structure DbState where
  sessions : List SessionRow
  questions : List QQuestion
  responses : List ResponseRow
  mastery : List MasteryDbRow
  family : List FamilyRow
  knowledge : List KnowledgeRow

/-- Python dict built by comprehension `{key(x): x for x in l}` then `.get`:
the value for a key is the last list element with that key. -/
def pyLookup {α : Type} (l : List α) (key : α → String) (k : String) : Option α :=
  l.reverse.find? (fun x => key x == k)

/-- `db._get_mastery_row`: first row matching the triple. -/
def _get_mastery_row (st : DbState) (patient_id item_type item_id : String) :
    Option MasteryDbRow :=
  st.mastery.find? (fun r =>
    r.patient_id == patient_id && r.item_type == item_type && r.item_id == item_id)

/-- `quiz._interval_days`: review interval in days from a mastery score. -/
def _interval_days (score : ℚ) : ℤ :=
  if score ≥ 8/10 then 14
  else if score ≥ 6/10 then 7
  else if score ≥ 4/10 then 4
  else if score ≥ 2/10 then 2
  else 1

/-- `quiz.compute_mastery_update`: the Scheduler update. `item_type` /
`item_id` are the values of `payload.get(...)` (Python's `not x` is true for
both `None` and `""`, hence the `getD "" = ""` test). Timestamps are in
seconds, so `timedelta(days=days)` is `86400 * days`. -/
def compute_mastery_update (st : DbState) (patient_id : String)
    (item_type item_id : Option String) (correct : Bool)
    (response_time_ms now : ℤ) : Option MasteryDbRow :=
  if item_type.getD "" = "" ∨ item_id.getD "" = "" then Option.none else
    let it := item_type.getD ""
    let ii := item_id.getD ""
    let existing := _get_mastery_row st patient_id it ii
    let ms0 : ℚ := match existing with | some r => r.mastery_score | Option.none => 0
    let cc0 : ℤ := match existing with | some r => r.consecutive_correct | Option.none => 0
    let ci0 : ℤ := match existing with | some r => r.consecutive_incorrect | Option.none => 0
    let ms1 : ℚ :=
      if correct then
        if response_time_ms < 3000 then min 1 (min 1 (ms0 + 1/10) + 1/20)
        else min 1 (ms0 + 1/10)
      else max 0 (ms0 - 1/20)
    let cc1 : ℤ := if correct then cc0 + 1 else 0
    let ci1 : ℤ := if correct then 0 else ci0 + 1
    some { patient_id := patient_id, item_type := it, item_id := ii,
           mastery_score := ms1, consecutive_correct := cc1,
           consecutive_incorrect := ci1,
           last_seen_at := some now,
           next_due_at := some (now + 86400 * _interval_days ms1) }

/-- Python `str.strip()`: drop leading and trailing whitespace. -/
def pyStrip (s : String) : String :=
  String.mk (((s.toList.dropWhile Char.isWhitespace).reverse.dropWhile
    Char.isWhitespace).reverse)

/-- Python `str.lower()` (ASCII case folding). -/
def pyLower (s : String) : String := String.mk (s.toList.map Char.toLower)

/-- `quiz.evaluate_answer`, on the string representations of both answers.
Note the source strips and lowers the user answer and the canonical answer,
but only lowers (never strips) the entries of `acceptable_answers`. -/
def evaluate_answer (question_type : String) (correct_answer user_answer : String)
    (acceptable_answers : List String) : Bool :=
  if question_type = "recall" then
    let ua := pyLower (pyStrip user_answer)
    if pyLower (pyStrip correct_answer) = ua then true
    else (acceptable_answers.map pyLower).contains ua
  else pyLower (pyStrip user_answer) == pyLower (pyStrip correct_answer)

/-- An element of the list returned by `db.due_items`: either a full
mastery row, or a catalog-derived dict for an item the query found no due
mastery row for (`{"item_type": ..., "item_id": ..., next_due_at: None,
last_seen_at: None}`, knowledge entries also carrying `sensitivity_level`). -/
inductive DueEntry where
  | fromMastery (r : MasteryDbRow)
  | fromFamily (id : String)
  | fromKnowledge (id : String) (sensitivity_level : ℤ)

/-- The `item_type` key of a due dict. -/
def DueEntry.item_type : DueEntry → String
  | .fromMastery r => r.item_type
  | .fromFamily _ => "family"
  | .fromKnowledge _ _ => "knowledge"

/-- The `item_id` key of a due dict. -/
def DueEntry.item_id : DueEntry → String
  | .fromMastery r => r.item_id
  | .fromFamily i => i
  | .fromKnowledge i _ => i

/-- The two catalog-fill loops of `db.due_items`: walk catalog rows,
appending an entry for each row whose id is not yet in `known_ids`. -/
def catalogFill {α : Type} (mk : α → DueEntry) (getId : α → String) :
    List α → List DueEntry → List String → List DueEntry × List String
  | [], acc, known => (acc, known)
  | x :: rest, acc, known =>
    if known.contains (getId x) then catalogFill mk getId rest acc known
    else catalogFill mk getId rest (acc ++ [mk x]) (getId x :: known)

/-- `db.due_items`: mastery rows of the patient whose `next_due_at` is null
or ≤ now, then every family and knowledge row of the patient whose id is
not among the item ids collected so far. -/
def due_items (st : DbState) (patient_id : String) (now : ℤ) : List DueEntry :=
  let mastery_due := st.mastery.filter (fun r =>
    r.patient_id == patient_id &&
      (match r.next_due_at with
       | Option.none => true
       | some t => decide (t ≤ now)))
  let due0 : List DueEntry := mastery_due.map DueEntry.fromMastery
  let known0 : List String := mastery_due.map (fun r => r.item_id)
  let fam := st.family.filter (fun f => f.patient_id == patient_id)
  let kns := st.knowledge.filter (fun k => k.patient_id == patient_id)
  let p1 := catalogFill (fun f => DueEntry.fromFamily f.id) (fun f => f.id) fam due0 known0
  let p2 := catalogFill (fun k => DueEntry.fromKnowledge k.id k.sensitivity_level)
    (fun k => k.id) kns p1.1 p1.2
  p2.1

/-- `db.update_mastery`: overwrite the first row matching the triple, or
append a fresh row. -/
def update_mastery : List MasteryDbRow → MasteryDbRow → List MasteryDbRow
  | [], p => [p]
  | r :: rest, p =>
    if r.patient_id == p.patient_id && r.item_type == p.item_type &&
        r.item_id == p.item_id then p :: rest
    else r :: update_mastery rest p

/-- `db.get_session`: first session row with the given id. -/
def get_session (st : DbState) (session_id : String) : Option SessionRow :=
  st.sessions.find? (fun s => s.id == session_id)

/-- `db.list_questions`: all question rows of the session. -/
def list_questions (st : DbState) (session_id : String) : List QQuestion :=
  st.questions.filter (fun q => q.session_id == session_id)

/-- `db.complete_session`: set status "completed" and overwrite score and
average response time on every session row with the given id. -/
def complete_session (st : DbState) (session_id : String) (score avg : ℚ) : DbState :=
  { st with sessions := st.sessions.map (fun s =>
      if s.id == session_id then
        { s with status := "completed", score := some score,
                 avg_response_time_ms := some avg }
      else s) }

/-- One item of the submit batch (`QuizSubmitItem` in `main.py`), the
answer held as its string representation. -/
structure SubmitItem where
  question_id : String
  user_answer : String
  response_time_ms : ℤ

/-- The response body of `submit_quiz` (`QuizSubmitResponse`). -/
structure SubmitSummary where
  session_id : String
  score : ℚ
  total_questions : ℕ
  correct : ℕ
  avg_response_time_ms : ℚ
  weak_items : List String

/-- The database writes of one iteration of the `main.submit_quiz` loop:
insert the `quiz_responses` row, then compute and persist the mastery
update (each in its own committed transaction). -/
def submitStep (patient_id session_id : String) (now : ℤ)
    (item : SubmitItem) (q : QQuestion) (st : DbState) : DbState :=
  let pl := q.payload
  let is_correct := evaluate_answer pl.question_type pl.correct_answer
    item.user_answer pl.acceptable_answers
  let st1 := { st with responses := st.responses ++
    [{ session_id := session_id, question_id := item.question_id,
       user_answer := item.user_answer, correct := is_correct,
       response_time_ms := item.response_time_ms }] }
  match compute_mastery_update st1 patient_id pl.item_type pl.item_id
      is_correct item.response_time_ms now with
  | some mu => { st1 with mastery := update_mastery st1.mastery mu }
  | Option.none => st1

/-- The per-item loop of `main.submit_quiz`. Each iteration first performs
its database writes (`submitStep`), then moves on; an unresolvable
question id aborts the loop at that point (flag `false`), keeping the
writes already made. -/
def submitLoop (patient_id session_id : String) (now : ℤ)
    (qlook : String → Option QQuestion) :
    List SubmitItem → DbState → ℕ → ℤ → List (String × Bool) →
    DbState × ℕ × ℤ × List (String × Bool) × Bool
  | [], st, c, t, res => (st, c, t, res, true)
  | item :: rest, st, c, t, res =>
    match qlook item.question_id with
    | Option.none => (st, c, t, res, false)
    | some q =>
      let pl := q.payload
      let is_correct := evaluate_answer pl.question_type pl.correct_answer
        item.user_answer pl.acceptable_answers
      submitLoop patient_id session_id now qlook rest
        (submitStep patient_id session_id now item q st)
        (if is_correct then c + 1 else c) (t + item.response_time_ms)
        (res ++ [(item.question_id, is_correct)])

/-- `main.submit_quiz`: resolve the session, build the question map from
the db once, run the loop, and on success aggregate and complete the
session. The returned `DbState` holds the writes committed so far even
when the request ends in an HTTP error, mirroring the per-statement
transactions of the source. -/
def submit_quiz (st : DbState) (session_id : String)
    (submissions : List SubmitItem) (now : ℤ) :
    Except String SubmitSummary × DbState :=
  match get_session st session_id with
  | Option.none => (Except.error "Session not found", st)
  | some sess =>
    let qs := list_questions st session_id
    let qlook := fun i => pyLookup qs (fun q => q.id) i
    let out := submitLoop sess.patient_id session_id now qlook submissions st 0 0 []
    let st1 := out.1
    let c := out.2.1
    let t := out.2.2.1
    let res := out.2.2.2.1
    let ok := out.2.2.2.2
    if ok then
      let score : ℚ := (c : ℚ) / ((max submissions.length 1 : ℕ) : ℚ)
      let avg : ℚ := (t : ℚ) / ((max submissions.length 1 : ℕ) : ℚ)
      (Except.ok { session_id := session_id, score := score,
                   total_questions := submissions.length, correct := c,
                   avg_response_time_ms := avg,
                   weak_items := (res.filter (fun rb => ! rb.2)).map (fun rb => rb.1) },
       complete_session st1 session_id score avg)
    else (Except.error "Invalid question id", st1)

/-- A decoded Python/JSON value, as produced by `json.loads` and consumed
by `data.get("questions", [])` in `quiz.generate_quiz_questions`. -/
inductive PyVal where
  | str (s : String)
  | num (n : ℤ)
  | bool (b : Bool)
  | null
  | list (xs : List PyVal)
  | dict (kvs : List (String × PyVal))

/-- Python `v.get(key, default)`: raises `AttributeError` unless `v` is a
dict; on a dict, the value of the last matching key, else the default. -/
def pyDictGet (v : PyVal) (key : String) (default : PyVal) : Except String PyVal :=
  match v with
  | PyVal.dict kvs =>
    Except.ok (match kvs.reverse.find? (fun kv => kv.1 == key) with
               | some kv => kv.2
               | Option.none => default)
  | _ => Except.error "AttributeError"

/-- Projection used in theorem statements: the value of a key of a dict
question, `none` for a missing key or a non-dict. -/
def pyGet? (v : PyVal) (key : String) : Option PyVal :=
  match v with
  | PyVal.dict kvs => (kvs.reverse.find? (fun kv => kv.1 == key)).map (fun kv => kv.2)
  | _ => Option.none

/-- Outcome of the external generator exchange, as it reaches the code:
the API call raised (`apiError`), `json.loads` raised (`jsonError`), or
decoding succeeded with value `v` (`parsed v`). -/
inductive GenResult where
  | apiError
  | jsonError
  | parsed (v : PyVal)

/-- An element of the mixed `selected_items` list of
`quiz.generate_quiz_questions`: a knowledge dict or a family dict. -/
inductive CatalogItem where
  | knowledge (k : KnowledgeRow)
  | family (f : FamilyRow)

/-- `item["id"]`. -/
def CatalogItem.itemId : CatalogItem → String
  | .knowledge k => k.id
  | .family f => f.id

/-- `"knowledge" if "label" in item else "family"`. -/
def CatalogItem.typeTag : CatalogItem → String
  | .knowledge _ => "knowledge"
  | .family _ => "family"

/-- `item.get("label") or item.get("full_name")`: a knowledge dict has no
`full_name` key, so an empty (falsy) label falls through to `None`; a
family dict has no `label` key, so its `full_name` is always returned. -/
def labelOrName : CatalogItem → Option String
  | .knowledge k => if k.label = "" then Option.none else some k.label
  | .family f => some f.full_name

/-- `item.get("value") or item.get("full_name")`, same falsy-chain rules. -/
def valueOrName : CatalogItem → Option String
  | .knowledge k => if k.value = "" then Option.none else some k.value
  | .family f => some f.full_name

/-- How an optional string renders inside an f-string (`None` prints as
`"None"`). -/
def pyRenderOpt : Option String → String
  | Option.none => "None"
  | some s => s

/-- An optional string as the JSON value placed in the question dict. -/
def optStrToPy : Option String → PyVal
  | Option.none => PyVal.null
  | some s => PyVal.str s

/-- One question dict built by `quiz._fallback_questions`, with uuid `i`. -/
def fallbackQ (i : String) (item : CatalogItem) : PyVal :=
  PyVal.dict
    [("id", PyVal.str i),
     ("question_type", PyVal.str "mcq"),
     ("prompt", PyVal.str ("Who/What is " ++ pyRenderOpt (labelOrName item) ++ "?")),
     ("options", PyVal.list [optStrToPy (valueOrName item), PyVal.str "Not sure"]),
     ("correct_answer", optStrToPy (valueOrName item)),
     ("item_type", PyVal.str item.typeTag),
     ("item_id", PyVal.str item.itemId),
     ("difficulty", PyVal.num 1),
     ("acceptable_answers", PyVal.list [])]

/-- The question-building loop of `_fallback_questions`, drawing uuid `k`,
`k+1`, ... from the id stream. -/
def fallbackList (ids : Nat → String) (k : Nat) : List CatalogItem → List PyVal
  | [] => []
  | item :: rest => fallbackQ (ids k) item :: fallbackList ids (k + 1) rest

/-- `quiz._fallback_questions`: one mcq question per item of the first `n`
items of the concatenated lists. -/
def _fallback_questions (ids : Nat → String)
    (knowledge_items family_members : List CatalogItem) (n : ℕ) : List PyVal :=
  fallbackList ids 0 ((knowledge_items ++ family_members).take n)

/-- The knowledge list after the sensitivity filter of
`generate_quiz_questions`. -/
def sensitiveFiltered (kis : List KnowledgeRow) (include_sensitive : Bool) :
    List KnowledgeRow :=
  kis.filter (fun ki => include_sensitive || decide (ki.sensitivity_level < 2))

/-- `if due.get("item_type") == "knowledge": ... elif ... == "family": ...`
of the due-priority loop, resolving a due entry to a catalog item through
the two lookup dicts. -/
def resolveDue (klook : String → Option KnowledgeRow)
    (flook : String → Option FamilyRow) (d : DueEntry) : Option CatalogItem :=
  if d.item_type = "knowledge" then (klook d.item_id).map CatalogItem.knowledge
  else if d.item_type = "family" then (flook d.item_id).map CatalogItem.family
  else Option.none

/-- The due-priority loop: append each resolvable, not yet seen item. -/
def duePick (klook : String → Option KnowledgeRow)
    (flook : String → Option FamilyRow) :
    List DueEntry → List CatalogItem → List String →
    List CatalogItem × List String
  | [], sel, seen => (sel, seen)
  | d :: rest, sel, seen =>
    match resolveDue klook flook d with
    | some it =>
      if seen.contains it.itemId then duePick klook flook rest sel seen
      else duePick klook flook rest (sel ++ [it]) (seen ++ [it.itemId])
    | Option.none => duePick klook flook rest sel seen

/-- The fill loop: walk the filtered-knowledge-then-family list, skipping
seen ids, appending, and breaking once the selection has reached `n`
(the length test runs after the append, as in the source). -/
def fillLoop (n : ℕ) :
    List CatalogItem → List CatalogItem → List String →
    List CatalogItem × List String
  | [], sel, seen => (sel, seen)
  | it :: rest, sel, seen =>
    if seen.contains it.itemId then fillLoop n rest sel seen
    else
      if n ≤ (sel ++ [it]).length then (sel ++ [it], seen ++ [it.itemId])
      else fillLoop n rest (sel ++ [it]) (seen ++ [it.itemId])

/-- `items_pool` of `generate_quiz_questions`: due-priority selection, then
catalog fill, truncated to the first `n` items. -/
def selected_pool (family_members : List FamilyRow) (knowledge_items : List KnowledgeRow)
    (due : List DueEntry) (n : ℕ) (include_sensitive : Bool) : List CatalogItem :=
  let sf := sensitiveFiltered knowledge_items include_sensitive
  let klook := fun i => pyLookup sf (fun k => k.id) i
  let flook := fun i => pyLookup family_members (fun f => f.id) i
  let p1 := duePick klook flook due [] []
  let p2 := fillLoop n (sf.map CatalogItem.knowledge ++
    family_members.map CatalogItem.family) p1.1 p1.2
  p2.1.take n

/-- `quiz.generate_quiz_questions` (the patient argument is only serialized
into the request to the external generator and is dropped here). With no
client or deployment configured (`gen = none`), or when the API call or
JSON decoding raises, the deterministic fallback is returned; on a decoded
value `v` the code returns `v.get("questions", [])` as-is. -/
def generate_quiz_questions (family_members : List FamilyRow)
    (knowledge_items : List KnowledgeRow) (due : List DueEntry)
    (n : ℕ) (include_sensitive : Bool)
    (gen : Option GenResult) (ids : Nat → String) : Except String PyVal :=
  let items_pool := selected_pool family_members knowledge_items due n include_sensitive
  match gen with
  | Option.none => Except.ok (PyVal.list (_fallback_questions ids items_pool [] n))
  | some GenResult.apiError =>
    Except.ok (PyVal.list (_fallback_questions ids items_pool [] n))
  | some GenResult.jsonError =>
    Except.ok (PyVal.list (_fallback_questions ids items_pool [] n))
  | some (GenResult.parsed v) => pyDictGet v "questions" (PyVal.list [])

/-- The source applies the fast-answer bonus as a second clamped add; this
equals a single clamped add of 3/20 (= 0.15). -/
theorem clamped_bonus_eq (s : ℚ) :
    min 1 (min 1 (s + 1/10) + 1/20) = min 1 (s + 3/20) := by
  rcases le_total (s + 1/10) 1 with h | h
  · rw [min_eq_right h]
    have : s + 1/10 + 1/20 = s + 3/20 := by ring
    rw [this]
  · rw [min_eq_left h, min_eq_left (by norm_num : (1:ℚ) ≤ 1 + 1/20),
      min_eq_left (by linarith : (1:ℚ) ≤ s + 3/20)]

/-- C1: for a prior record with score s ∈ [0,1], a correct answer yields
score `min 1 (s + 1/10)` when the response took ≥ 3000 ms and
`min 1 (s + 3/20)` when it took < 3000 ms, increments the
consecutive-correct streak and zeroes the consecutive-incorrect streak; an
incorrect answer yields `max 0 (s - 1/20)`, increments
consecutive-incorrect and zeroes consecutive-correct; and with no existing
record the update behaves as from baseline score 0 and zero streaks. -/
theorem compute_mastery_update_step (st : DbState) (pid it ii : String)
    (rt now : ℤ) (r : MasteryDbRow)
    (hit : ¬ it = "") (hii : ¬ ii = "")
    (hr : _get_mastery_row st pid it ii = some r)
    (hs0 : 0 ≤ r.mastery_score) (hs1 : r.mastery_score ≤ 1) :
    (3000 ≤ rt →
      compute_mastery_update st pid (some it) (some ii) true rt now =
        some { patient_id := pid, item_type := it, item_id := ii,
               mastery_score := min 1 (r.mastery_score + 1/10),
               consecutive_correct := r.consecutive_correct + 1,
               consecutive_incorrect := 0,
               last_seen_at := some now,
               next_due_at := some (now + 86400 *
                 _interval_days (min 1 (r.mastery_score + 1/10))) })
    ∧ (rt < 3000 →
      compute_mastery_update st pid (some it) (some ii) true rt now =
        some { patient_id := pid, item_type := it, item_id := ii,
               mastery_score := min 1 (r.mastery_score + 3/20),
               consecutive_correct := r.consecutive_correct + 1,
               consecutive_incorrect := 0,
               last_seen_at := some now,
               next_due_at := some (now + 86400 *
                 _interval_days (min 1 (r.mastery_score + 3/20))) })
    ∧ (compute_mastery_update st pid (some it) (some ii) false rt now =
        some { patient_id := pid, item_type := it, item_id := ii,
               mastery_score := max 0 (r.mastery_score - 1/20),
               consecutive_correct := 0,
               consecutive_incorrect := r.consecutive_incorrect + 1,
               last_seen_at := some now,
               next_due_at := some (now + 86400 *
                 _interval_days (max 0 (r.mastery_score - 1/20))) })
    ∧ (∀ st2 : DbState, _get_mastery_row st2 pid it ii = Option.none →
        compute_mastery_update st2 pid (some it) (some ii) true rt now =
          (if rt < 3000 then
            some { patient_id := pid, item_type := it, item_id := ii,
                   mastery_score := min 1 ((0:ℚ) + 3/20),
                   consecutive_correct := 0 + 1, consecutive_incorrect := 0,
                   last_seen_at := some now,
                   next_due_at := some (now + 86400 *
                     _interval_days (min 1 ((0:ℚ) + 3/20))) }
          else
            some { patient_id := pid, item_type := it, item_id := ii,
                   mastery_score := min 1 ((0:ℚ) + 1/10),
                   consecutive_correct := 0 + 1, consecutive_incorrect := 0,
                   last_seen_at := some now,
                   next_due_at := some (now + 86400 *
                     _interval_days (min 1 ((0:ℚ) + 1/10))) })
        ∧ compute_mastery_update st2 pid (some it) (some ii) false rt now =
            some { patient_id := pid, item_type := it, item_id := ii,
                   mastery_score := max 0 ((0:ℚ) - 1/20),
                   consecutive_correct := 0, consecutive_incorrect := 0 + 1,
                   last_seen_at := some now,
                   next_due_at := some (now + 86400 *
                     _interval_days (max 0 ((0:ℚ) - 1/20))) }) := by
  have hne : ¬ ((some it).getD "" = "" ∨ (some ii).getD "" = "") := by
    simp [hit, hii]
  refine ⟨?_, ?_, ?_, ?_⟩
  · intro hrt
    have h3 : ¬ rt < 3000 := not_lt.2 hrt
    simp [compute_mastery_update, hne, hr, h3, hit, hii]
  · intro hrt
    rw [show (min 1 (r.mastery_score + 3/20) : ℚ) =
        min 1 (min 1 (r.mastery_score + 1/10) + 1/20) from (clamped_bonus_eq _).symm]
    simp [compute_mastery_update, hne, hr, hrt, hit, hii]
  · simp [compute_mastery_update, hne, hr, hit, hii]
  · intro st2 hnone
    constructor
    · by_cases hrt : rt < 3000
      · rw [if_pos hrt,
          show (min 1 ((0:ℚ) + 3/20) : ℚ) =
            min 1 (min 1 ((0:ℚ) + 1/10) + 1/20) from (clamped_bonus_eq _).symm]
        simp [compute_mastery_update, hne, hnone, hrt, hit, hii]
      · rw [if_neg hrt]
        simp [compute_mastery_update, hne, hnone, hrt, hit, hii]
    · simp [compute_mastery_update, hne, hnone, hit, hii]

/-- The concrete database used by the scheduler witnesses. -/
def rowSched : MasteryDbRow :=
  { patient_id := "p", item_type := "knowledge", item_id := "i",
    mastery_score := 1/2, consecutive_correct := 2, consecutive_incorrect := 0,
    last_seen_at := Option.none, next_due_at := Option.none }

/-- A one-row mastery store holding `rowSched`. -/
def stSched : DbState :=
  { sessions := [], questions := [], responses := [], mastery := [rowSched],
    family := [], knowledge := [] }

/-- Witness for C1 at a concrete slow correct answer. -/
theorem compute_mastery_update_step_witness :
    compute_mastery_update stSched "p" (some "knowledge") (some "i") true 5000 0 =
      some { patient_id := "p", item_type := "knowledge", item_id := "i",
             mastery_score := min 1 (rowSched.mastery_score + 1/10),
             consecutive_correct := rowSched.consecutive_correct + 1,
             consecutive_incorrect := 0,
             last_seen_at := some 0,
             next_due_at := some (0 + 86400 *
               _interval_days (min 1 (rowSched.mastery_score + 1/10))) } :=
  (compute_mastery_update_step stSched "p" "knowledge" "i" 5000 0 rowSched
    (by decide) (by decide) rfl (by norm_num [rowSched]) (by norm_num [rowSched])).1
    (by norm_num)

/-- C9: after any Scheduler update that returns a record, the
consecutive-correct and consecutive-incorrect counters are never both
positive: each update zeroes at least one of them. -/
theorem mastery_streaks_not_both_positive (st : DbState) (pid : String)
    (ity iid : Option String) (c : Bool) (rt now : ℤ) (r : MasteryDbRow)
    (h : compute_mastery_update st pid ity iid c rt now = some r) :
    ¬ (0 < r.consecutive_correct ∧ 0 < r.consecutive_incorrect) := by
  unfold compute_mastery_update at h
  by_cases hf : ity.getD "" = "" ∨ iid.getD "" = ""
  · simp [hf] at h
  · rw [if_neg hf] at h
    simp only [Option.some.injEq] at h
    rintro ⟨h1, h2⟩
    cases c with
    | true =>
      rw [← h] at h2
      simp at h2
    | false =>
      rw [← h] at h1
      simp at h1

/-- Witness for C9 at a concrete update. -/
theorem mastery_streaks_not_both_positive_witness :
    ¬ (0 < (1 : ℤ) ∧ 0 < (0 : ℤ)) :=
  mastery_streaks_not_both_positive stSched "p" (some "knowledge") (some "x")
    true 100 0
    { patient_id := "p", item_type := "knowledge", item_id := "x",
      mastery_score := min 1 (min 1 ((0:ℚ) + 1/10) + 1/20),
      consecutive_correct := 0 + 1, consecutive_incorrect := 0,
      last_seen_at := some 0,
      next_due_at := some (0 + 86400 *
        _interval_days (min 1 (min 1 ((0:ℚ) + 1/10) + 1/20))) }
    rfl

/-- C2 counterexample: the next-review interval is not a non-increasing
function of the post-update score — a lower score yields a shorter
interval (`_interval_days (1/10) = 1 < 14 = _interval_days (9/10)`). -/
theorem interval_days_not_nonincreasing :
    (1:ℚ)/10 ≤ 9/10 ∧ ¬ _interval_days (9/10) ≤ _interval_days (1/10) := by
  constructor
  · norm_num
  · norm_num [_interval_days]

/-- C2 (amended): the next-review interval is 14 days for post-update score
≥ 0.8, else 7 for ≥ 0.6, else 4 for ≥ 0.4, else 2 for ≥ 0.2, else 1 — a
non-decreasing step function of the score — and every record returned by
the Scheduler has next-due timestamp now + interval (in seconds, one day =
86400) derived from its post-update score, and last-seen timestamp now. -/
theorem interval_and_timestamps :
    (∀ s : ℚ,
      (8/10 ≤ s → _interval_days s = 14)
      ∧ (6/10 ≤ s → s < 8/10 → _interval_days s = 7)
      ∧ (4/10 ≤ s → s < 6/10 → _interval_days s = 4)
      ∧ (2/10 ≤ s → s < 4/10 → _interval_days s = 2)
      ∧ (s < 2/10 → _interval_days s = 1))
    ∧ (∀ s t : ℚ, s ≤ t → _interval_days s ≤ _interval_days t)
    ∧ (∀ (st : DbState) (pid : String) (ity iid : Option String) (c : Bool)
        (rt now : ℤ) (r : MasteryDbRow),
        compute_mastery_update st pid ity iid c rt now = some r →
          r.next_due_at = some (now + 86400 * _interval_days r.mastery_score)
          ∧ r.last_seen_at = some now) := by
  refine ⟨?_, ?_, ?_⟩
  · intro s
    unfold _interval_days
    refine ⟨?_, ?_, ?_, ?_, ?_⟩ <;> intros <;> split_ifs <;>
      first | rfl | linarith
  · intro s t hst
    unfold _interval_days
    split_ifs <;> linarith
  · intro st pid ity iid c rt now r h
    unfold compute_mastery_update at h
    by_cases hf : ity.getD "" = "" ∨ iid.getD "" = ""
    · simp [hf] at h
    · rw [if_neg hf] at h
      simp only [Option.some.injEq] at h
      rw [← h]
      exact ⟨rfl, rfl⟩

/-- Witness for C2 at concrete scores and a concrete update. -/
theorem interval_and_timestamps_witness :
    _interval_days (9/10) = 14 ∧ _interval_days (1/10) = 1 ∧
      (some (0 + 86400 * _interval_days (min 1 (min 1 ((0:ℚ) + 1/10) + 1/20))) =
        some ((0:ℤ) + 86400 * _interval_days (min 1 (min 1 ((0:ℚ) + 1/10) + 1/20)))
        ∧ (some (0:ℤ) = some (0:ℤ))) :=
  ⟨(interval_and_timestamps.1 (9/10)).1 (by norm_num),
   (interval_and_timestamps.1 (1/10)).2.2.2.2 (by norm_num),
   interval_and_timestamps.2.2 stSched "p" (some "knowledge") (some "x")
     true 100 0
     { patient_id := "p", item_type := "knowledge", item_id := "x",
       mastery_score := min 1 (min 1 ((0:ℚ) + 1/10) + 1/20),
       consecutive_correct := 0 + 1, consecutive_incorrect := 0,
       last_seen_at := some 0,
       next_due_at := some (0 + 86400 *
         _interval_days (min 1 (min 1 ((0:ℚ) + 1/10) + 1/20))) }
     rfl⟩

/-- C3 counterexample: the claim says acceptable alternates are compared
whitespace-insensitively, but the source lowers alternates without
stripping them, so the submitted answer "paris" fails against the alternate
" Paris " even though the two agree after strip-and-lower. -/
theorem evaluate_answer_alternate_whitespace_cex :
    evaluate_answer "recall" "x" "paris" [" Paris "] = false
    ∧ pyLower (pyStrip "paris") = pyLower (pyStrip " Paris ") := by
  constructor
  · rfl
  · rfl

/-- C3 (amended): comparisons of the submitted answer against the
canonical answer are case- and leading/trailing-whitespace-insensitive on
the string representations; for question type "recall" the evaluator
additionally accepts the submitted answer when its stripped-and-lowered
form equals the *lowered but not stripped* form of some entry of the
acceptable-answers list; for every other question type only the canonical
answer is consulted. -/
theorem evaluate_answer_characterization (q c u : String) (as : List String) :
    (evaluate_answer "recall" c u as = true ↔
      pyLower (pyStrip u) = pyLower (pyStrip c)
      ∨ ∃ a ∈ as, pyLower (pyStrip u) = pyLower a)
    ∧ (q ≠ "recall" →
      (evaluate_answer q c u as = true ↔
        pyLower (pyStrip u) = pyLower (pyStrip c))) := by
  constructor
  · unfold evaluate_answer
    rw [if_pos rfl]
    by_cases hc : pyLower (pyStrip c) = pyLower (pyStrip u)
    · rw [if_pos hc]
      exact ⟨fun _ => Or.inl hc.symm, fun _ => rfl⟩
    · rw [if_neg hc]
      rw [List.elem_iff]
      simp only [List.mem_map]
      constructor
      · rintro ⟨a, ha, hEq⟩
        exact Or.inr ⟨a, ha, hEq.symm⟩
      · rintro (h | ⟨a, ha, hEq⟩)
        · exact absurd h.symm hc
        · exact ⟨a, ha, hEq.symm⟩
  · intro hq
    unfold evaluate_answer
    rw [if_neg hq]
    exact beq_iff_eq

/-- Witness for C3 at concrete answers of both question types. -/
theorem evaluate_answer_characterization_witness :
    (evaluate_answer "recall" "blue" "Navy" ["navy"] = true ↔
      pyLower (pyStrip "Navy") = pyLower (pyStrip "blue")
      ∨ ∃ a ∈ ["navy"], pyLower (pyStrip "Navy") = pyLower a)
    ∧ (evaluate_answer "mcq" "Blue" " blue " ["navy"] = true ↔
      pyLower (pyStrip " blue ") = pyLower (pyStrip "Blue")) :=
  ⟨(evaluate_answer_characterization "recall" "blue" "Navy" ["navy"]).1,
   (evaluate_answer_characterization "mcq" "Blue" " blue " ["navy"]).2
     (by decide)⟩

/-- The mastery row used by the C5 failing input: due again only at t=105. -/
def rowDue : MasteryDbRow :=
  { patient_id := "p", item_type := "knowledge", item_id := "k1",
    mastery_score := 1/2, consecutive_correct := 1, consecutive_incorrect := 0,
    last_seen_at := some 50, next_due_at := some 105 }

/-- Database for the C5 failing input: one knowledge item "k1" whose
mastery record is strictly future-due at now = 100. -/
def stDue : DbState :=
  { sessions := [], questions := [], responses := [], mastery := [rowDue],
    family := [],
    knowledge := [{ id := "k1", patient_id := "p", category := "c",
                    label := "l", value := "v", sensitivity_level := 0,
                    is_active := true }] }

/-- C5: the claim (and the source's own docstring, "Return items due for
review") says an item whose MasteryRecord has a strictly future next-due
timestamp never appears in the due set. The code filters the mastery rows
to the due ones and then treats every catalog item *not among those due
rows* as never-reviewed, so item "k1" — whose only mastery row is due at
105 > now = 100 — reappears as a catalog-derived entry. -/
theorem due_items_future_due_reappears :
    due_items stDue "p" 100 = [DueEntry.fromKnowledge "k1" 0]
    ∧ _get_mastery_row stDue "p" "knowledge" "k1" = some rowDue
    ∧ rowDue.next_due_at = some 105 ∧ (100 : ℤ) < 105 := by
  refine ⟨rfl, rfl, rfl, by norm_num⟩

/-- `submitStep` never touches the sessions table. -/
theorem submitStep_sessions (pid sid : String) (now : ℤ) (item : SubmitItem)
    (q : QQuestion) (st : DbState) :
    (submitStep pid sid now item q st).sessions = st.sessions := by
  simp only [submitStep]
  split <;> rfl

/-- `submitStep` appends exactly one response row. -/
theorem submitStep_responses (pid sid : String) (now : ℤ) (item : SubmitItem)
    (q : QQuestion) (st : DbState) :
    (submitStep pid sid now item q st).responses.length =
      st.responses.length + 1 := by
  simp only [submitStep]
  split <;> simp

/-- When every submitted id resolves, the loop runs to the end with the ok
flag set and never writes to the sessions table. -/
theorem submitLoop_resolved (pid sid : String) (now : ℤ)
    (qlook : String → Option QQuestion) :
    ∀ (subs : List SubmitItem) (st : DbState) (c : ℕ) (t : ℤ)
      (res : List (String × Bool)),
      (∀ i ∈ subs, (qlook i.question_id).isSome = true) →
      (submitLoop pid sid now qlook subs st c t res).1.sessions = st.sessions
      ∧ (submitLoop pid sid now qlook subs st c t res).2.2.2.2 = true := by
  intro subs
  induction subs with
  | nil => intro st c t res _; exact ⟨rfl, rfl⟩
  | cons i rest ih =>
    intro st c t res h
    obtain ⟨q, hq⟩ := Option.isSome_iff_exists.mp (h i (List.mem_cons_self i rest))
    have hrest : ∀ j ∈ rest, (qlook j.question_id).isSome = true :=
      fun j hj => h j (List.mem_cons_of_mem i hj)
    simp only [submitLoop, hq]
    refine ⟨?_, (ih _ _ _ _ hrest).2⟩
    rw [(ih _ _ _ _ hrest).1, submitStep_sessions]

/-- When the batch is a resolvable prefix followed by an unresolvable id,
the loop stops there with the ok flag cleared, having appended exactly one
response row per prefix item and leaving the sessions table alone. -/
theorem submitLoop_stops_at_bad (pid sid : String) (now : ℤ)
    (qlook : String → Option QQuestion) (bad : SubmitItem)
    (rest : List SubmitItem)
    (hbad : qlook bad.question_id = Option.none) :
    ∀ (pre : List SubmitItem) (st : DbState) (c : ℕ) (t : ℤ)
      (res : List (String × Bool)),
      (∀ i ∈ pre, (qlook i.question_id).isSome = true) →
      (submitLoop pid sid now qlook (pre ++ bad :: rest) st c t res).2.2.2.2 = false
      ∧ (submitLoop pid sid now qlook (pre ++ bad :: rest) st c t res).1.responses.length
          = st.responses.length + pre.length
      ∧ (submitLoop pid sid now qlook (pre ++ bad :: rest) st c t res).1.sessions
          = st.sessions := by
  intro pre
  induction pre with
  | nil =>
    intro st c t res _
    simp [submitLoop, hbad]
  | cons i pre' ih =>
    intro st c t res h
    obtain ⟨q, hq⟩ := Option.isSome_iff_exists.mp (h i (List.mem_cons_self i pre'))
    have hpre' : ∀ j ∈ pre', (qlook j.question_id).isSome = true :=
      fun j hj => h j (List.mem_cons_of_mem i hj)
    simp only [List.cons_append, submitLoop, hq, List.append_eq]
    refine ⟨(ih _ _ _ _ hpre').1, ?_, ?_⟩
    · rw [(ih _ _ _ _ hpre').2.1, submitStep_responses]
      simp only [List.length_cons]
      omega
    · rw [(ih _ _ _ _ hpre').2.2, submitStep_sessions]

/-- C4 (amended): a batch containing an unresolvable question id is
rejected with "Invalid question id" and the session is never marked
completed (the sessions table is untouched), and nothing is persisted for
the unresolvable item or the items after it; but the items *preceding* the
first unresolvable id have already been processed — exactly one
QuizResponse row per preceding item has been committed by the time the
batch is rejected, so the rejection is not free of partial processing. -/
theorem submit_unresolvable_id_rejects_batch (st : DbState) (sid : String)
    (sess : SessionRow) (pre : List SubmitItem) (bad : SubmitItem)
    (rest : List SubmitItem) (now : ℤ)
    (hses : get_session st sid = some sess)
    (hpre : ∀ i ∈ pre,
      (pyLookup (list_questions st sid) (fun q => q.id) i.question_id).isSome = true)
    (hbad : pyLookup (list_questions st sid) (fun q => q.id) bad.question_id =
      Option.none) :
    (submit_quiz st sid (pre ++ bad :: rest) now).1 =
      Except.error "Invalid question id"
    ∧ (submit_quiz st sid (pre ++ bad :: rest) now).2.responses.length =
        st.responses.length + pre.length
    ∧ (submit_quiz st sid (pre ++ bad :: rest) now).2.sessions = st.sessions := by
  have hloop := submitLoop_stops_at_bad sess.patient_id sid now
    (fun i => pyLookup (list_questions st sid) (fun q => q.id) i) bad rest hbad
    pre st 0 0 [] hpre
  simp only [submit_quiz, hses]
  rw [hloop.1]
  exact ⟨rfl, hloop.2.1, hloop.2.2⟩

/-- C10: when the session resolves and every submitted question id
resolves, the submit call succeeds, marks every session row with that id
"completed", and overwrites its score and average response time with the
summary's aggregates; an empty batch yields score 0 and average time 0.
Nothing here requires the batch to cover all of the session's questions,
nor the session to still be "active": any prior status (including
"completed" from an earlier submit) is overwritten again. -/
theorem submit_all_resolve_completes (st : DbState) (sid : String)
    (subs : List SubmitItem) (now : ℤ) (sess : SessionRow)
    (hses : get_session st sid = some sess)
    (hres : ∀ i ∈ subs,
      (pyLookup (list_questions st sid) (fun q => q.id) i.question_id).isSome = true) :
    ∃ sm : SubmitSummary,
      (submit_quiz st sid subs now).1 = Except.ok sm
      ∧ (∀ srow ∈ (submit_quiz st sid subs now).2.sessions, srow.id = sid →
          srow.status = "completed" ∧ srow.score = some sm.score
          ∧ srow.avg_response_time_ms = some sm.avg_response_time_ms)
      ∧ (subs = [] → sm.score = 0 ∧ sm.avg_response_time_ms = 0) := by
  have hloop := submitLoop_resolved sess.patient_id sid now
    (fun i => pyLookup (list_questions st sid) (fun q => q.id) i) subs st 0 0 [] hres
  simp only [submit_quiz, hses]
  rw [hloop.2]
  simp only [if_true]
  refine ⟨_, rfl, ?_, ?_⟩
  · intro srow hmem hid
    simp only [complete_session, hloop.1] at hmem
    obtain ⟨x, hx, hfx⟩ := List.mem_map.mp hmem
    by_cases hxid : x.id == sid
    · rw [if_pos hxid] at hfx
      rw [← hfx]
      exact ⟨rfl, rfl, rfl⟩
    · rw [if_neg hxid] at hfx
      rw [← hfx] at hid
      exact absurd hid (by simpa using hxid)
  · intro hempty
    subst hempty
    constructor
    · show ((0 : ℕ) : ℚ) / ((max (List.length ([] : List SubmitItem)) 1 : ℕ) : ℚ) = 0
      norm_num
    · show ((0 : ℤ) : ℚ) / ((max (List.length ([] : List SubmitItem)) 1 : ℕ) : ℚ) = 0
      norm_num

/-- The question row used by the concrete submit states. -/
def qSub : QQuestion :=
  { id := "q1", session_id := "s", question_type := "mcq",
    payload := { question_type := "mcq", correct_answer := "a",
                 acceptable_answers := [], item_type := some "knowledge",
                 item_id := some "i1" } }

/-- The session row used by the concrete submit states. -/
def sessSub : SessionRow :=
  { id := "s", patient_id := "p", status := "active", total_questions := 1,
    score := Option.none, avg_response_time_ms := Option.none }

/-- Concrete database with one active session and one question. -/
def stSub : DbState :=
  { sessions := [sessSub], questions := [qSub], responses := [], mastery := [],
    family := [], knowledge := [] }

/-- C4 counterexample: the claim says a batch with an unresolvable id
creates no QuizResponse row and persists no mastery update for *any* item
of the batch, including items preceding the unresolvable id. Submitting
a resolvable item followed by an unknown id rejects the batch, yet leaves
one committed response row and one committed mastery row behind. -/
theorem submit_partial_prefix_cex :
    (submit_quiz stSub "s"
      [{ question_id := "q1", user_answer := "a", response_time_ms := 1000 },
       { question_id := "qX", user_answer := "b", response_time_ms := 5 }] 0).1 =
      Except.error "Invalid question id"
    ∧ (submit_quiz stSub "s"
        [{ question_id := "q1", user_answer := "a", response_time_ms := 1000 },
         { question_id := "qX", user_answer := "b", response_time_ms := 5 }] 0).2.responses.length = 1
    ∧ (submit_quiz stSub "s"
        [{ question_id := "q1", user_answer := "a", response_time_ms := 1000 },
         { question_id := "qX", user_answer := "b", response_time_ms := 5 }] 0).2.mastery.length = 1 := by
  exact ⟨rfl, rfl, rfl⟩

/-- Witness for C4 with an empty resolvable prefix. -/
theorem submit_unresolvable_id_rejects_batch_witness :
    (submit_quiz stSub "s"
      [{ question_id := "qX", user_answer := "b", response_time_ms := 5 }] 0).1 =
      Except.error "Invalid question id"
    ∧ (submit_quiz stSub "s"
        [{ question_id := "qX", user_answer := "b", response_time_ms := 5 }] 0).2.responses.length =
        stSub.responses.length + 0
    ∧ (submit_quiz stSub "s"
        [{ question_id := "qX", user_answer := "b", response_time_ms := 5 }] 0).2.sessions =
        stSub.sessions := by
  have h := submit_unresolvable_id_rejects_batch stSub "s" sessSub []
    { question_id := "qX", user_answer := "b", response_time_ms := 5 } [] 0
    rfl (by simp) rfl
  simpa using h

/-- Witness for C10 at a concrete one-item batch. -/
theorem submit_all_resolve_completes_witness :
    ∃ sm : SubmitSummary,
      (submit_quiz stSub "s"
        [{ question_id := "q1", user_answer := "a", response_time_ms := 1000 }] 0).1 =
        Except.ok sm
      ∧ (∀ srow ∈ (submit_quiz stSub "s"
          [{ question_id := "q1", user_answer := "a", response_time_ms := 1000 }] 0).2.sessions,
          srow.id = "s" →
            srow.status = "completed" ∧ srow.score = some sm.score
            ∧ srow.avg_response_time_ms = some sm.avg_response_time_ms)
      ∧ ([{ question_id := "q1", user_answer := "a", response_time_ms := 1000 }] =
          ([] : List SubmitItem) → sm.score = 0 ∧ sm.avg_response_time_ms = 0) :=
  submit_all_resolve_completes stSub "s"
    [{ question_id := "q1", user_answer := "a", response_time_ms := 1000 }] 0
    sessSub rfl (by simp [list_questions, stSub, qSub, pyLookup])

/-- A dict lookup hit is a member of the backing list. -/
theorem pyLookup_mem {α : Type} {l : List α} {key : α → String} {k : String}
    {x : α} (h : pyLookup l key k = some x) : x ∈ l :=
  List.mem_reverse.mp (List.mem_of_find?_eq_some h)

/-- A resolved due entry satisfies any property enjoyed by the images of
the two lookup dicts. -/
theorem resolveDue_prop (P : CatalogItem → Prop)
    (klook : String → Option KnowledgeRow) (flook : String → Option FamilyRow)
    (hk : ∀ i k, klook i = some k → P (CatalogItem.knowledge k))
    (hf : ∀ i f, flook i = some f → P (CatalogItem.family f))
    (d : DueEntry) (it : CatalogItem)
    (h : resolveDue klook flook d = some it) : P it := by
  unfold resolveDue at h
  split_ifs at h
  · obtain ⟨k, hk', hkeq⟩ := Option.map_eq_some'.mp h
    rw [← hkeq]
    exact hk _ _ hk'
  · obtain ⟨f, hf', hfeq⟩ := Option.map_eq_some'.mp h
    rw [← hfeq]
    exact hf _ _ hf'

/-- Every item selected by the due-priority loop satisfies any property
enjoyed by the initial selection and the lookup images. -/
theorem duePick_prop (P : CatalogItem → Prop)
    (klook : String → Option KnowledgeRow) (flook : String → Option FamilyRow)
    (hk : ∀ i k, klook i = some k → P (CatalogItem.knowledge k))
    (hf : ∀ i f, flook i = some f → P (CatalogItem.family f)) :
    ∀ (due : List DueEntry) (sel : List CatalogItem) (seen : List String),
      (∀ x ∈ sel, P x) →
      ∀ x ∈ (duePick klook flook due sel seen).1, P x := by
  intro due
  induction due with
  | nil => intro sel seen hsel; exact hsel
  | cons d rest ih =>
    intro sel seen hsel
    cases hr : resolveDue klook flook d with
    | none =>
      simp only [duePick, hr]
      exact ih sel seen hsel
    | some it =>
      simp only [duePick, hr]
      by_cases hc : seen.contains it.itemId = true
      · rw [if_pos hc]
        exact ih sel seen hsel
      · rw [if_neg hc]
        refine ih (sel ++ [it]) (seen ++ [it.itemId]) ?_
        intro x hx
        rcases List.mem_append.mp hx with hx | hx
        · exact hsel x hx
        · rw [List.mem_singleton.mp hx]
          exact resolveDue_prop P klook flook hk hf d it hr

/-- Every item selected by the fill loop satisfies any property enjoyed by
the initial selection and the walked catalog list. -/
theorem fillLoop_prop (P : CatalogItem → Prop) (n : ℕ) :
    ∀ (l : List CatalogItem) (sel : List CatalogItem) (seen : List String),
      (∀ x ∈ l, P x) → (∀ x ∈ sel, P x) →
      ∀ x ∈ (fillLoop n l sel seen).1, P x := by
  intro l
  induction l with
  | nil => intro sel seen _ hsel; exact hsel
  | cons it rest ih =>
    intro sel seen hl hsel
    have hit : P it := hl it (List.mem_cons_self it rest)
    have hrest : ∀ x ∈ rest, P x := fun x hx => hl x (List.mem_cons_of_mem it hx)
    have happ : ∀ x ∈ sel ++ [it], P x := by
      intro x hx
      rcases List.mem_append.mp hx with hx | hx
      · exact hsel x hx
      · rw [List.mem_singleton.mp hx]; exact hit
    simp only [fillLoop]
    by_cases hc : seen.contains it.itemId
    · rw [if_pos hc]
      exact ih sel seen hrest hsel
    · rw [if_neg hc]
      by_cases hn : n ≤ (sel ++ [it]).length
      · rw [if_pos hn]
        exact happ
      · rw [if_neg hn]
        exact ih (sel ++ [it]) (seen ++ [it.itemId]) hrest happ

/-- Every item of the selection pool is either a knowledge row that
survived the sensitivity filter or a family row of the input. -/
theorem selected_pool_spec (fam : List FamilyRow) (kis : List KnowledgeRow)
    (due : List DueEntry) (n : ℕ) (inc : Bool) :
    ∀ x ∈ selected_pool fam kis due n inc,
      (∃ k, x = CatalogItem.knowledge k ∧ k ∈ sensitiveFiltered kis inc)
      ∨ (∃ f, x = CatalogItem.family f ∧ f ∈ fam) := by
  intro x hx
  have hx2 := List.take_subset n _ hx
  refine fillLoop_prop
    (fun y => (∃ k, y = CatalogItem.knowledge k ∧ k ∈ sensitiveFiltered kis inc)
      ∨ (∃ f, y = CatalogItem.family f ∧ f ∈ fam)) n _ _ _ ?_ ?_ x hx2
  · intro y hy
    rcases List.mem_append.mp hy with hy | hy
    · obtain ⟨k, hk, rfl⟩ := List.mem_map.mp hy
      exact Or.inl ⟨k, rfl, hk⟩
    · obtain ⟨f, hfm, rfl⟩ := List.mem_map.mp hy
      exact Or.inr ⟨f, rfl, hfm⟩
  · refine duePick_prop
      (fun y => (∃ k, y = CatalogItem.knowledge k ∧ k ∈ sensitiveFiltered kis inc)
        ∨ (∃ f, y = CatalogItem.family f ∧ f ∈ fam)) _ _ ?_ ?_ due [] [] (by simp)
    · intro i k hk
      exact Or.inl ⟨k, rfl, pyLookup_mem hk⟩
    · intro i f hf
      exact Or.inr ⟨f, rfl, pyLookup_mem hf⟩

/-- The fallback builds one question per selected item. -/
theorem fallbackList_length (ids : Nat → String) :
    ∀ (k : Nat) (l : List CatalogItem), (fallbackList ids k l).length = l.length := by
  intro k l
  induction l generalizing k with
  | nil => rfl
  | cons it rest ih => simp [fallbackList, ih]

/-- Every fallback question is `fallbackQ` of some uuid and some item of
the input list. -/
theorem fallbackList_mem (ids : Nat → String) :
    ∀ (k : Nat) (l : List CatalogItem) (q : PyVal), q ∈ fallbackList ids k l →
      ∃ (j : Nat) (it : CatalogItem), it ∈ l ∧ q = fallbackQ (ids j) it := by
  intro k l
  induction l generalizing k with
  | nil => intro q hq; exact absurd hq (by simp [fallbackList])
  | cons it rest ih =>
    intro q hq
    rcases List.mem_cons.mp hq with hq | hq
    · exact ⟨k, it, List.mem_cons_self it rest, hq⟩
    · obtain ⟨j, it2, hmem, heq⟩ := ih (k + 1) q hq
      exact ⟨j, it2, List.mem_cons_of_mem it hmem, heq⟩

/-- A constant uuid stream for concrete runs. -/
def idsF : ℕ → String := fun _ => "u"

/-- On the fallback path (no generator configured, API error, or JSON
decode error) the assembler returns exactly the fallback questions of the
selection pool. -/
theorem generate_fallback_path_eq (fam : List FamilyRow)
    (kis : List KnowledgeRow) (due : List DueEntry) (n : ℕ) (inc : Bool)
    (gen : Option GenResult) (ids : ℕ → String)
    (hgen : gen = Option.none ∨ gen = some GenResult.apiError
      ∨ gen = some GenResult.jsonError) :
    generate_quiz_questions fam kis due n inc gen ids =
      Except.ok (PyVal.list
        (_fallback_questions ids (selected_pool fam kis due n inc) [] n)) := by
  rcases hgen with rfl | rfl | rfl <;> rfl

/-- Appending one id to `seen` leaves the membership test unchanged for
every id different from it. -/
theorem contains_append_ne (seen : List String) (a x : String) (h : ¬ x = a) :
    (seen ++ [a]).contains x = seen.contains x := by
  cases hs : seen.contains x
  · simp at hs
    simp [hs, h]
  · simp at hs
    simp [hs]

/-- Extending `seen` by an id carried by no element of the list leaves the
fresh-item filter unchanged. -/
theorem filter_fresh_extend (l : List CatalogItem) (seen : List String)
    (a : String) (ha : ∀ x ∈ l, ¬ x.itemId = a) :
    l.filter (fun x => ! (seen ++ [a]).contains x.itemId) =
      l.filter (fun x => ! seen.contains x.itemId) := by
  apply List.filter_congr
  intro x hx
  rw [contains_append_ne seen a x.itemId (ha x hx)]

/-- Count of the fill loop: up to the cap `n`, the loop grows the selection
by exactly the walked items whose ids are not in `seen` (the walked list
having distinct ids, as table primary keys do). -/
theorem fillLoop_count (n : ℕ) :
    ∀ (l : List CatalogItem) (sel : List CatalogItem) (seen : List String),
      (l.map CatalogItem.itemId).Nodup →
      min n (fillLoop n l sel seen).1.length =
        min n (sel.length +
          (l.filter (fun x => ! seen.contains x.itemId)).length) := by
  intro l
  induction l with
  | nil => intro sel seen _; simp [fillLoop]
  | cons it rest ih =>
    intro sel seen hnd
    rw [List.map_cons, List.nodup_cons] at hnd
    obtain ⟨hni, hndr⟩ := hnd
    simp only [fillLoop]
    by_cases hc : seen.contains it.itemId = true
    · rw [if_pos hc]
      rw [ih sel seen hndr]
      have hmem : it.itemId ∈ seen := List.elem_iff.mp hc
      have hfc : List.filter (fun x => ! seen.contains x.itemId) (it :: rest) =
          List.filter (fun x => ! seen.contains x.itemId) rest := by
        simp [List.filter_cons, hmem]
      rw [hfc]
    · rw [if_neg hc]
      have hmem : ¬ it.itemId ∈ seen := fun hm => hc (List.elem_iff.mpr hm)
      have hfc : List.filter (fun x => ! seen.contains x.itemId) (it :: rest) =
          it :: List.filter (fun x => ! seen.contains x.itemId) rest := by
        simp [List.filter_cons, hmem]
      by_cases hn2 : n ≤ (sel ++ [it]).length
      · rw [if_pos hn2]
        rw [hfc]
        simp only [List.length_append, List.length_singleton, List.length_nil,
          List.length_cons] at hn2 ⊢
        rw [min_eq_left hn2, min_eq_left (by omega)]
      · rw [if_neg hn2]
        rw [ih (sel ++ [it]) (seen ++ [it.itemId]) hndr]
        rw [filter_fresh_extend rest seen it.itemId
          (fun x hx hxe => hni (hxe ▸ List.mem_map_of_mem CatalogItem.itemId hx))]
        rw [hfc]
        simp only [List.length_append, List.length_singleton, List.length_nil,
          List.length_cons]
        congr 1
        omega

/-- The due-priority loop keeps `seen` equal to the id list of the
selection (both start empty and grow in lockstep). -/
theorem duePick_seen (klook : String → Option KnowledgeRow)
    (flook : String → Option FamilyRow) :
    ∀ (due : List DueEntry) (sel : List CatalogItem) (seen : List String),
      seen = sel.map CatalogItem.itemId →
      (duePick klook flook due sel seen).2 =
        (duePick klook flook due sel seen).1.map CatalogItem.itemId := by
  intro due
  induction due with
  | nil => intro sel seen h; exact h
  | cons d rest ih =>
    intro sel seen h
    cases hr : resolveDue klook flook d with
    | none =>
      simp only [duePick, hr]
      exact ih sel seen h
    | some it =>
      simp only [duePick, hr]
      by_cases hc : seen.contains it.itemId = true
      · rw [if_pos hc]
        exact ih sel seen h
      · rw [if_neg hc]
        refine ih _ _ ?_
        rw [h, List.map_append]
        rfl

/-- Catalog items whose id lies in `seen` number at most `seen.length`,
the catalog ids being distinct. -/
theorem filter_contains_le (L : List CatalogItem) (seen : List String)
    (hnd : (L.map CatalogItem.itemId).Nodup) :
    (L.filter (fun x => seen.contains x.itemId)).length ≤ seen.length := by
  have hsub : (L.filter (fun x => seen.contains x.itemId)).map
      CatalogItem.itemId ⊆ seen := by
    intro i hi
    obtain ⟨x, hx, hxe⟩ := List.mem_map.mp hi
    have hpx := List.of_mem_filter hx
    rw [← hxe]
    simpa using hpx
  have hnd2 : ((L.filter (fun x => seen.contains x.itemId)).map
      CatalogItem.itemId).Nodup :=
    hnd.sublist ((List.filter_sublist _).map CatalogItem.itemId)
  calc (L.filter (fun x => seen.contains x.itemId)).length
      = ((L.filter (fun x => seen.contains x.itemId)).map
          CatalogItem.itemId).length := (List.length_map _ _).symm
    _ ≤ seen.length := List.Subperm.length_le (hnd2.subperm hsub)

/-- Exactness of the selection: with distinct catalog ids, the pool holds
exactly `n` items whenever the filtered catalog has at least `n`. The due
loop selects distinct-id items (its `seen` set tracks its selection), the
fill loop then adds every catalog item whose id is still unseen until the
cap, so the loop cannot run out before the catalog does. -/
theorem selected_pool_exact (fam : List FamilyRow) (kis : List KnowledgeRow)
    (due : List DueEntry) (n : ℕ) (inc : Bool)
    (hids : ((sensitiveFiltered kis inc).map (fun k => k.id)
      ++ fam.map (fun f => f.id)).Nodup)
    (hn : n ≤ (sensitiveFiltered kis inc).length + fam.length) :
    (selected_pool fam kis due n inc).length = n := by
  have hndL : (((sensitiveFiltered kis inc).map CatalogItem.knowledge
      ++ fam.map CatalogItem.family).map CatalogItem.itemId).Nodup := by
    rw [List.map_append, List.map_map, List.map_map]
    exact hids
  simp only [selected_pool]
  rw [List.length_take]
  rw [fillLoop_count n _ _ _ hndL]
  have hseen := duePick_seen
    (fun i => pyLookup (sensitiveFiltered kis inc) (fun k => k.id) i)
    (fun i => pyLookup fam (fun f => f.id) i) due [] [] rfl
  have h1 : (duePick
      (fun i => pyLookup (sensitiveFiltered kis inc) (fun k => k.id) i)
      (fun i => pyLookup fam (fun f => f.id) i) due [] []).2.length =
      (duePick
      (fun i => pyLookup (sensitiveFiltered kis inc) (fun k => k.id) i)
      (fun i => pyLookup fam (fun f => f.id) i) due [] []).1.length := by
    rw [hseen, List.length_map]
  have h2 : ((sensitiveFiltered kis inc).map CatalogItem.knowledge
      ++ fam.map CatalogItem.family).length =
      (((sensitiveFiltered kis inc).map CatalogItem.knowledge
        ++ fam.map CatalogItem.family).filter (fun x => (duePick
          (fun i => pyLookup (sensitiveFiltered kis inc) (fun k => k.id) i)
          (fun i => pyLookup fam (fun f => f.id) i) due [] []).2.contains
            x.itemId)).length +
      (((sensitiveFiltered kis inc).map CatalogItem.knowledge
        ++ fam.map CatalogItem.family).filter (fun x => ! (duePick
          (fun i => pyLookup (sensitiveFiltered kis inc) (fun k => k.id) i)
          (fun i => pyLookup fam (fun f => f.id) i) due [] []).2.contains
            x.itemId)).length :=
    List.length_eq_length_filter_add _
  have h3 := filter_contains_le
    ((sensitiveFiltered kis inc).map CatalogItem.knowledge
      ++ fam.map CatalogItem.family)
    (duePick
      (fun i => pyLookup (sensitiveFiltered kis inc) (fun k => k.id) i)
      (fun i => pyLookup fam (fun f => f.id) i) due [] []).2 hndL
  have h4 : ((sensitiveFiltered kis inc).map CatalogItem.knowledge
      ++ fam.map CatalogItem.family).length =
      (sensitiveFiltered kis inc).length + fam.length := by
    simp
  refine min_eq_left ?_
  omega

/-- C6 (amended): the due-priority-then-catalog-fill selection is
truncated to exactly `n` items — fewer only when the filtered catalog,
whose item ids are distinct (table primary keys), holds fewer than `n`
items — and on the fallback path the returned question list never exceeds
`n`; the external-generator path, however, returns the decoded `questions`
value as-is, without truncation. -/
theorem generate_fallback_at_most_n (fam : List FamilyRow)
    (kis : List KnowledgeRow) (due : List DueEntry) (n : ℕ) (inc : Bool)
    (gen : Option GenResult) (ids : ℕ → String)
    (hids : ((sensitiveFiltered kis inc).map (fun k => k.id)
      ++ fam.map (fun f => f.id)).Nodup)
    (hgen : gen = Option.none ∨ gen = some GenResult.apiError
      ∨ gen = some GenResult.jsonError) :
    (selected_pool fam kis due n inc).length ≤ n
    ∧ (n ≤ (sensitiveFiltered kis inc).length + fam.length →
        (selected_pool fam kis due n inc).length = n)
    ∧ generate_quiz_questions fam kis due n inc gen ids =
        Except.ok (PyVal.list
          (_fallback_questions ids (selected_pool fam kis due n inc) [] n))
    ∧ (_fallback_questions ids (selected_pool fam kis due n inc) [] n).length ≤ n := by
  refine ⟨?_, fun hn => selected_pool_exact fam kis due n inc hids hn, ?_, ?_⟩
  · simp only [selected_pool]
    exact List.length_take_le n _
  · exact generate_fallback_path_eq fam kis due n inc gen ids hgen
  · simp only [_fallback_questions]
    rw [fallbackList_length]
    exact List.length_take_le n _

/-- Witness for C6 with one knowledge item, `n = 1`, and no generator:
the selection is exactly one item. -/
theorem generate_fallback_at_most_n_witness :
    (selected_pool []
      [{ id := "k1", patient_id := "p", category := "c", label := "l",
         value := "v", sensitivity_level := 0, is_active := true }] [] 1 false).length ≤ 1
    ∧ (1 ≤ (sensitiveFiltered
        [{ id := "k1", patient_id := "p", category := "c", label := "l",
           value := "v", sensitivity_level := 0, is_active := true }] false).length +
        ([] : List FamilyRow).length →
      (selected_pool []
        [{ id := "k1", patient_id := "p", category := "c", label := "l",
           value := "v", sensitivity_level := 0, is_active := true }] [] 1 false).length = 1)
    ∧ generate_quiz_questions []
        [{ id := "k1", patient_id := "p", category := "c", label := "l",
           value := "v", sensitivity_level := 0, is_active := true }] [] 1 false
        Option.none idsF =
        Except.ok (PyVal.list (_fallback_questions idsF
          (selected_pool []
            [{ id := "k1", patient_id := "p", category := "c", label := "l",
               value := "v", sensitivity_level := 0, is_active := true }] [] 1 false) [] 1))
    ∧ (_fallback_questions idsF
        (selected_pool []
          [{ id := "k1", patient_id := "p", category := "c", label := "l",
             value := "v", sensitivity_level := 0, is_active := true }] [] 1 false) [] 1).length ≤ 1 :=
  generate_fallback_at_most_n []
    [{ id := "k1", patient_id := "p", category := "c", label := "l",
       value := "v", sensitivity_level := 0, is_active := true }] [] 1 false
    Option.none idsF (by decide) (Or.inl rfl)

/-- C6 counterexample: with a configured generator whose decoded output
holds two questions under `"questions"`, a request for `n = 1` questions
returns both — the generator path is never truncated, so the claim that
the returned list never exceeds `n` fails. -/
theorem generate_exceeds_n_cex :
    generate_quiz_questions [] [] [] 1 false
      (some (GenResult.parsed (PyVal.dict
        [("questions", PyVal.list [PyVal.dict [], PyVal.dict []])]))) idsF =
      Except.ok (PyVal.list [PyVal.dict [], PyVal.dict []])
    ∧ 1 < ([PyVal.dict [], PyVal.dict []] : List PyVal).length := by
  exact ⟨rfl, by norm_num⟩

/-- C7 (amended): with includeSensitive = false, on the fallback path every
returned question is the fallback question of either a knowledge row of the
catalog with sensitivity level < 2 (items with level ≥ 2 are excluded from
the catalog fill, and due entries pointing at them fail to resolve and are
skipped) or a family row (never filtered by sensitivity); the
external-generator path returns the decoded output unchecked. -/
theorem generate_fallback_sensitivity_filter (fam : List FamilyRow)
    (kis : List KnowledgeRow) (due : List DueEntry) (n : ℕ)
    (gen : Option GenResult) (ids : ℕ → String) (qs : List PyVal)
    (hgen : gen = Option.none ∨ gen = some GenResult.apiError
      ∨ gen = some GenResult.jsonError)
    (hqs : generate_quiz_questions fam kis due n false gen ids =
      Except.ok (PyVal.list qs)) :
    ∀ q ∈ qs, ∃ (j : ℕ) (it : CatalogItem), q = fallbackQ (ids j) it
      ∧ ((∃ k, it = CatalogItem.knowledge k ∧ k ∈ kis ∧ k.sensitivity_level < 2)
         ∨ (∃ f, it = CatalogItem.family f ∧ f ∈ fam)) := by
  have hqs2 : qs = _fallback_questions ids (selected_pool fam kis due n false) [] n := by
    rw [generate_fallback_path_eq fam kis due n false gen ids hgen] at hqs
    exact (PyVal.list.injEq _ _).mp (Except.ok.inj hqs).symm
  subst hqs2
  intro q hq
  obtain ⟨j, it, hmem, heq⟩ := fallbackList_mem ids 0 _ q hq
  have hmem2 : it ∈ selected_pool fam kis due n false := by
    have := List.take_subset n _ hmem
    simpa using this
  refine ⟨j, it, heq, ?_⟩
  rcases selected_pool_spec fam kis due n false it hmem2 with ⟨k, hk1, hk2⟩ | hfam
  · refine Or.inl ⟨k, hk1, ?_, ?_⟩
    · exact List.mem_of_mem_filter hk2
    · have := List.of_mem_filter hk2
      simpa using this
  · exact Or.inr hfam

/-- The sensitive knowledge row of the C7 counterexample. -/
def kSens : KnowledgeRow :=
  { id := "s1", patient_id := "p", category := "c", label := "secret",
    value := "v", sensitivity_level := 2, is_active := true }

/-- C7 counterexample: with includeSensitive = false and a configured
generator whose decoded output references the sensitivity-2 item "s1", the
returned question still references that item — the generator output is
never checked against the sensitivity filter. -/
theorem generate_sensitive_leak_cex :
    generate_quiz_questions [] [kSens] [] 1 false
      (some (GenResult.parsed (PyVal.dict
        [("questions", PyVal.list
          [PyVal.dict [("item_type", PyVal.str "knowledge"),
                       ("item_id", PyVal.str "s1")]])]))) idsF =
      Except.ok (PyVal.list
        [PyVal.dict [("item_type", PyVal.str "knowledge"),
                     ("item_id", PyVal.str "s1")]])
    ∧ kSens.id = "s1" ∧ (2 : ℤ) ≤ kSens.sensitivity_level := by
  refine ⟨rfl, rfl, by norm_num [kSens]⟩

/-- The non-sensitive knowledge row of the C7 witness. -/
def kNon : KnowledgeRow :=
  { id := "k1", patient_id := "p", category := "c", label := "l",
    value := "v", sensitivity_level := 0, is_active := true }

/-- Witness for C7 at the single question of a concrete fallback run. -/
theorem generate_fallback_sensitivity_filter_witness :
    ∃ (j : ℕ) (it : CatalogItem),
      fallbackQ (idsF 0) (CatalogItem.knowledge kNon) = fallbackQ (idsF j) it
      ∧ ((∃ k, it = CatalogItem.knowledge k ∧ k ∈ [kNon] ∧ k.sensitivity_level < 2)
         ∨ (∃ f, it = CatalogItem.family f ∧ f ∈ ([] : List FamilyRow))) :=
  generate_fallback_sensitivity_filter [] [kNon] [] 1 Option.none idsF _
    (Or.inl rfl) rfl (fallbackQ (idsF 0) (CatalogItem.knowledge kNon))
    (List.mem_cons_self _ _)

/-- C8 (amended): when no generator is configured, or the generator call
raises, or its content fails JSON decoding, the assembler substitutes the
deterministic fallback: one mcq question per selected item whose prompt
asks to identify the item's label/name, whose options are the item's
value/name plus the literal distractor "Not sure", whose correct answer is
that value/name, with difficulty 1 and an empty acceptable-answers list.
However, content that decodes to a non-object raises an AttributeError to
the caller, and a decoded object without a "questions" key yields `[]`
rather than the fallback. -/
theorem generate_fallback_on_failure (fam : List FamilyRow)
    (kis : List KnowledgeRow) (due : List DueEntry) (n : ℕ) (inc : Bool)
    (gen : Option GenResult) (ids : ℕ → String)
    (hgen : gen = Option.none ∨ gen = some GenResult.apiError
      ∨ gen = some GenResult.jsonError) :
    generate_quiz_questions fam kis due n inc gen ids =
      Except.ok (PyVal.list
        (_fallback_questions ids (selected_pool fam kis due n inc) [] n))
    ∧ (∀ (j : ℕ) (it : CatalogItem),
        pyGet? (fallbackQ (ids j) it) "question_type" = some (PyVal.str "mcq")
        ∧ pyGet? (fallbackQ (ids j) it) "prompt" =
            some (PyVal.str ("Who/What is " ++ pyRenderOpt (labelOrName it) ++ "?"))
        ∧ pyGet? (fallbackQ (ids j) it) "options" =
            some (PyVal.list [optStrToPy (valueOrName it), PyVal.str "Not sure"])
        ∧ pyGet? (fallbackQ (ids j) it) "correct_answer" =
            some (optStrToPy (valueOrName it))
        ∧ pyGet? (fallbackQ (ids j) it) "difficulty" = some (PyVal.num 1)
        ∧ pyGet? (fallbackQ (ids j) it) "acceptable_answers" =
            some (PyVal.list [])) := by
  refine ⟨generate_fallback_path_eq fam kis due n inc gen ids hgen, ?_⟩
  intro j it
  exact ⟨rfl, rfl, rfl, rfl, rfl, rfl⟩

/-- Witness for C8 at a concrete API failure. -/
theorem generate_fallback_on_failure_witness :
    generate_quiz_questions []
      [{ id := "k1", patient_id := "p", category := "c", label := "l",
         value := "v", sensitivity_level := 0, is_active := true }] [] 1 false
      (some GenResult.apiError) idsF =
      Except.ok (PyVal.list (_fallback_questions idsF
        (selected_pool []
          [{ id := "k1", patient_id := "p", category := "c", label := "l",
             value := "v", sensitivity_level := 0, is_active := true }] [] 1 false) [] 1))
    ∧ pyGet? (fallbackQ (idsF 0)
        (CatalogItem.knowledge
          { id := "k1", patient_id := "p", category := "c", label := "l",
            value := "v", sensitivity_level := 0, is_active := true })) "difficulty" =
        some (PyVal.num 1) :=
  ⟨(generate_fallback_on_failure []
      [{ id := "k1", patient_id := "p", category := "c", label := "l",
         value := "v", sensitivity_level := 0, is_active := true }] [] 1 false
      (some GenResult.apiError) idsF (Or.inr (Or.inl rfl))).1,
   ((generate_fallback_on_failure []
      [{ id := "k1", patient_id := "p", category := "c", label := "l",
         value := "v", sensitivity_level := 0, is_active := true }] [] 1 false
      (some GenResult.apiError) idsF (Or.inr (Or.inl rfl))).2 0
      (CatalogItem.knowledge
        { id := "k1", patient_id := "p", category := "c", label := "l",
          value := "v", sensitivity_level := 0, is_active := true })).2.2.2.2.1⟩

/-- C8 counterexample: content that decodes to a JSON array (not an
object) makes `data.get("questions", [])` raise an AttributeError that is
not caught — the assembler raises to its caller instead of substituting
the fallback. -/
theorem generate_nonobject_raises_cex :
    generate_quiz_questions [] [] [] 1 false
      (some (GenResult.parsed (PyVal.list []))) idsF =
      Except.error "AttributeError" := rfl
